import Mathlib

/-!
Verification of the Spica wallet chatbot (src/spica.py, src/re.py) against its
natural-language specification.  Python dictionaries are modelled as association
lists whose lookup returns the most recently stored binding; Python floats are
modelled as exact rationals (every numeric value appearing in a claim is exactly
representable); raising an exception is modelled as an `Except.error` /
`Option.none` result.
-/

set_option autoImplicit false

namespace Spica

/-! ## Response cache (module-level `response_cache` dict in spica.py)

The cache is the Python dict `response_cache : Dict[str, str]`.  A dict is
modelled as an association list where a fresh store prepends a binding and
lookup returns the first (most recent) binding for a key, which matches the
observable get/set behaviour of a Python dict. -/

abbrev Cache := List (String × String)

/-- Source `get_cached_response(prompt)`: `return response_cache.get(prompt)`. -/
def get_cached_response (cache : Cache) (prompt : String) : Option String :=
  cache.lookup prompt

/-- Source `cache_response(prompt, response)`: `response_cache[prompt] = response`
followed by `save_cache()`.  The dict assignment is modelled; the write-through
snapshot rewrite touches only the file system, not the map. -/
def cache_response (cache : Cache) (prompt : String) (response : String) : Cache :=
  (prompt, response) :: cache

/-! ### Model of `json.load` for the snapshot file

The snapshot written by `save_cache` is a flat JSON object mapping prompt
strings to response strings, so `json.load` is modelled as a parser for flat
string-to-string JSON objects (string literals without escape sequences; this
is the shape `json.dump` produces for such a dict).  Any input outside this
grammar makes `json.load` raise, modelled as `none`. -/

def isJsonWs (c : Char) : Bool :=
  c == ' ' || c == '\t' || c == '\n' || c == '\r'

def skipWs (l : List Char) : List Char :=
  l.dropWhile isJsonWs

def notJStringEnd (c : Char) : Bool :=
  !(c == '"' || c == '\\')

/-- Parse a JSON string literal (no escape sequences) and return it with the
rest of the input. -/
def parseJString : List Char → Option (String × List Char)
  | '"' :: rest =>
    match rest.dropWhile notJStringEnd with
    | '"' :: rest2 => some (String.mk (rest.takeWhile notJStringEnd), rest2)
    | _ => none
  | _ => none

/-- Parse the members of a JSON object after the opening brace, up to and
including the closing brace.  Fuel bounds the recursion. -/
def parseMembers : Nat → List Char → Option (List (String × String) × List Char)
  | 0, _ => none
  | fuel + 1, l =>
    match parseJString (skipWs l) with
    | none => none
    | some (k, r1) =>
      match skipWs r1 with
      | ':' :: r2 =>
        match parseJString (skipWs r2) with
        | none => none
        | some (v, r3) =>
          match skipWs r3 with
          | ',' :: r4 =>
            match parseMembers fuel r4 with
            | some (rest, r5) => some ((k, v) :: rest, r5)
            | none => none
          | '}' :: r4 => some ([(k, v)], r4)
          | _ => none
      | _ => none

/-- Model of `json.load` on the snapshot contents: a flat string-to-string JSON
object parses to the cache map, anything else raises (`none`). -/
def jsonParse (s : String) : Option (List (String × String)) :=
  match skipWs s.data with
  | '{' :: r =>
    match skipWs r with
    | '}' :: r2 => if skipWs r2 = [] then some [] else none
    | _ =>
      match parseMembers (s.length + 1) r with
      | some (m, rest) => if skipWs rest = [] then some m else none
      | none => none
  | _ => none

/-- Source module-level load (spica.py lines 46-50):
`if os.path.exists(CACHE_FILE): response_cache = json.load(f)` with no
exception handler, `else: response_cache = {}`.  `snapshot` is `none` when the
cache file does not exist and `some contents` otherwise; a `json.load` failure
propagates as `Except.error`. -/
def load_response_cache (snapshot : Option String) : Except String Cache :=
  match snapshot with
  | none => Except.ok []
  | some contents =>
    match jsonParse contents with
    | some m => Except.ok m
    | none => Except.error "JSONDecodeError"

/-- Source `get_openai_response(prompt, context)` up to the external call:
`cached_response = get_cached_response(prompt); if cached_response: return
cached_response`, otherwise call the backend, cache the generated text and
return it.  `backend` abstracts the OpenAI call (strip included); the third
component records the prompts sent to the backend.  Python truthiness makes
both `None` and the empty string fall through to the backend. -/
def get_openai_response (cache : Cache) (backend : String → String) (prompt : String) :
    String × Cache × List String :=
  match get_cached_response cache prompt with
  | some cached =>
    if cached ≠ "" then (cached, cache, [])
    else
      let generated := backend prompt
      (generated, cache_response cache prompt generated, [prompt])
  | none =>
    let generated := backend prompt
    (generated, cache_response cache prompt generated, [prompt])

/-! ## Wallet registry and Solana transaction path (spica.py)

The registry is the module dict `wallets : Dict[str, Keypair]`, modelled like
the cache as an association list.  A keypair is identified by its public key
(the only field the transfer path reads).  External library calls —
`base58.b58decode`, `Keypair.from_secret_key`, the RPC client — are passed in
as function parameters; the second component of each operation's result records
the signing and network calls the run performs, so "no network call" is the
empty trace. -/

structure Keypair where
  publicKey : String
  deriving DecidableEq, Repr

abbrev WalletRegistry := List (String × Keypair)

/-- The dict lookup `wallets[name]`; `name in wallets` is `isSome` of it. -/
def lookupWallet (ws : WalletRegistry) (name : String) : Option Keypair :=
  ws.lookup name

/-- Instructions a built transaction can carry: `transfer(TransferParams(...))`
for SOL and `transfer_checked(TransferCheckedParams(...))` for SPL tokens. -/
inductive Instr where
  | transferIx (fromPubkey toPubkey : String) (lamports : Int)
  | transferCheckedIx (programId source mint dest owner : String)
      (amount : Int) (decimals : Nat)
  deriving DecidableEq, Repr

/-- Signing and network calls observable during one operation. -/
inductive NetEvent where
  | getBalanceCall (address : String)
  | signTx (signer : String)
  | submitTx (tx : List Instr)
  deriving DecidableEq, Repr

inductive SendResult where
  | walletNotFound
  | invalidAddress
  | invalidAmount
  | submitted (txid : String)
  | txFailed (msg : String)
  deriving DecidableEq, Repr

inductive BalanceResult where
  | walletNotFound
  | balance (sol : ℚ)
  | rpcError (msg : String)
  deriving DecidableEq, Repr

/-- Python `int()` truncation toward zero, on an exact rational. -/
def pyInt (q : ℚ) : Int :=
  Int.tdiv q.num (q.den : Int)

def TOKEN_PROGRAM_ID : String :=
  "TokenkegQfeZyiNwAJbNbGKPFXCWuBvf9Ss623VQ5DA"

/-- Source `validate_solana_address(address)`: `len(address) == 44`. -/
def validate_solana_address (address : String) : Bool :=
  address.length == 44

/-- Numeric value of a run of decimal digits. -/
def decimalDigitsVal (l : List Char) : ℕ :=
  l.foldl (fun acc c => 10 * acc + (c.toNat - '0'.toNat)) 0

/-- Model of Python `float()` on plain decimal literals: optional sign, integer
part, optional fractional part, at least one digit overall; anything else
raises `ValueError` (`none`).  Exponents, `inf`/`nan` and surrounding
whitespace are outside the model's scope, and values are exact rationals. -/
def pyFloat? (s : String) : Option ℚ :=
  let (sign, l) : ℚ × List Char :=
    match s.data with
    | '-' :: rest => (-1, rest)
    | '+' :: rest => (1, rest)
    | l => (1, l)
  let intPart := l.takeWhile Char.isDigit
  let rest := l.dropWhile Char.isDigit
  match rest with
  | [] => if intPart = [] then none else some (sign * decimalDigitsVal intPart)
  | '.' :: rest2 =>
    let fracPart := rest2.takeWhile Char.isDigit
    let rest3 := rest2.dropWhile Char.isDigit
    if rest3 = [] ∧ (intPart ≠ [] ∨ fracPart ≠ []) then
      some (sign * ((decimalDigitsVal intPart : ℚ) +
        (decimalDigitsVal fracPart : ℚ) / 10 ^ fracPart.length))
    else none
  | _ => none

/-- Source `validate_transaction_amount(amount)`: `float(amount) > 0` with
`ValueError` caught and returned as `False`. -/
def validate_transaction_amount (amount : String) : Bool :=
  match pyFloat? amount with
  | some x => decide (0 < x)
  | none => false

/-- The amount check as `send_solana_transaction` performs it: the amount
arrives as a float and `float(str(x))` round-trips a float exactly, so
`validate_transaction_amount(str(amount))` there is the strict positivity
test. -/
def validate_transaction_amount_float (amount : ℚ) : Bool :=
  decide (0 < amount)

/-- Source `verify_2fa(code)`: `totp.verify(code)`.  Defined in spica.py but
never invoked anywhere in the module — in particular not on the transfer
path. -/
def verify_2fa (totpVerify : String → Bool) (code : String) : Bool :=
  totpVerify code

/-- Source `send_solana_transaction(wallet_name, recipient, amount,
token_address)`: guard on wallet membership, then `validate_solana_address`,
then `validate_transaction_amount(str(amount))`, then build either the SPL
branch (`amount=int(amount * 10**9)`, `decimals=9`, both hardcoded) or the SOL
branch (`lamports=int(amount * 10**9)`), sign and submit.  `submitRpc`
abstracts `solana_client.send_transaction`; `RPCException` there is caught and
reported as `txFailed`. -/
def send_solana_transaction (ws : WalletRegistry) (wallet_name recipient : String)
    (amount : ℚ) (token_address : Option String)
    (submitRpc : List Instr → Except String String) : SendResult × List NetEvent :=
  match lookupWallet ws wallet_name with
  | none => (.walletNotFound, [])
  | some sender =>
    if !validate_solana_address recipient then (.invalidAddress, [])
    else if !validate_transaction_amount_float amount then (.invalidAmount, [])
    else
      let tx : List Instr :=
        match token_address with
        | some mint =>
          [.transferCheckedIx TOKEN_PROGRAM_ID sender.publicKey mint recipient
            sender.publicKey (pyInt (amount * 10 ^ 9)) 9]
        | none =>
          [.transferIx sender.publicKey recipient (pyInt (amount * 10 ^ 9))]
      match submitRpc tx with
      | .ok txid => (.submitted txid, [.signTx sender.publicKey, .submitTx tx])
      | .error e => (.txFailed e, [.signTx sender.publicKey, .submitTx tx])

/-- Source `get_solana_balance(wallet_name)`: guard on wallet membership, then
`solana_client.get_balance` (abstracted as `balanceRpc`, returning lamports or
an `RPCException`), then `lamports / 10**9`. -/
def get_solana_balance (ws : WalletRegistry) (wallet_name : String)
    (balanceRpc : String → Except String Int) : BalanceResult × List NetEvent :=
  match lookupWallet ws wallet_name with
  | none => (.walletNotFound, [])
  | some kp =>
    match balanceRpc kp.publicKey with
    | .ok lamports => (.balance ((lamports : ℚ) / 10 ^ 9), [.getBalanceCall kp.publicKey])
    | .error e => (.rpcError e, [.getBalanceCall kp.publicKey])

/-- Top-level names bound by spica.py's import statements.  `base64` is
imported but `base58` is not, while `connect_wallet` calls
`base58.b58decode`. -/
def spicaImportedNames : List String :=
  ["os", "asyncio", "json", "logging", "base64", "csv", "aiohttp", "pyotp",
   "getpass", "Optional", "Dict", "List", "load_dotenv", "AsyncClient",
   "Confirmed", "TxOpts", "PublicKey", "Keypair", "Transaction",
   "TransferParams", "transfer", "RPCException", "TOKEN_PROGRAM_ID",
   "transfer_checked", "TransferCheckedParams", "Fernet", "openai", "Console",
   "Table", "Prompt"]

inductive ConnectResult where
  | connected (publicKey : String)
  | failed (message : String)
  deriving DecidableEq, Repr

/-- Source `connect_wallet(wallet_name, private_key)` with a supplied key: the
`try` block first resolves the name `base58`, which spica.py never imports, so
a `NameError` is raised, caught by the blanket `except Exception`, and no
wallet is registered.  `b58decode` and `fromSecretKey` abstract what the
library calls would do were the name bound (decode failure and bad key
material respectively raise, i.e. return `none`). -/
def connect_wallet (ws : WalletRegistry) (wallet_name : String) (private_key : String)
    (b58decode : String → Option (List Nat))
    (fromSecretKey : List Nat → Option Keypair) : WalletRegistry × ConnectResult :=
  if "base58" ∈ spicaImportedNames then
    match b58decode private_key with
    | none => (ws, .failed "b58decode failed")
    | some raw =>
      match fromSecretKey raw with
      | none => (ws, .failed "from_secret_key failed")
      | some kp => ((wallet_name, kp) :: ws, .connected kp.publicKey)
  else
    (ws, .failed "name base58 is not defined")

/-- Source `switch_wallet(new_wallet)`: returns `new_wallet` when it is
registered, otherwise returns the module-global `current_wallet`. -/
def switch_wallet (ws : WalletRegistry) (module_current : Option String)
    (new_wallet : String) : Option String :=
  if (lookupWallet ws new_wallet).isSome then some new_wallet else module_current

/-- State relevant to wallet switching: the registry, the module-global
`current_wallet` (assigned `None` at module initialisation and never rebound —
`chatbot` has no `global current_wallet` declaration), and the `chatbot`-local
variable `current_wallet` that the dispatch arm assigns. -/
structure ChatState where
  wallets : WalletRegistry
  moduleCurrent : Option String
  localCurrent : Option String
  deriving DecidableEq, Repr

/-- The `switch_wallet` dispatch arm of `chatbot`:
`current_wallet = switch_wallet(new_wallet)`, an assignment to the
`chatbot`-local `current_wallet`, while `switch_wallet` itself reads the
module-global one. -/
def dispatch_switch_wallet (st : ChatState) (new_wallet : String) : ChatState :=
  { st with localCurrent := switch_wallet st.wallets st.moduleCurrent new_wallet }

/-- Module initialisation: `current_wallet: Optional[str] = None`. -/
def initModuleCurrent : Option String := none

/-! ## Command parsing (src/re.py)

Source `parse_solana_transaction_command(user_input)` runs
`re.search(r"send solana (\d+(\.\d+)?) to (\S+)", user_input.lower())` and
returns `(float(match.group(1)), match.group(3))` on a match, `(None, None)`
otherwise (`none` models the latter pair).  `str.lower()` is modelled
characterwise by `Char.toLower` and the `\d`/`\s` classes over their ASCII
members.  For this particular pattern, greedy matching without backtracking
coincides with the regex engine's result: after the greedy `\d+` and the
optional greedy `(\.\d+)` the next pattern element is the literal `" to "`,
which begins with a space, and no character a digit run or a fraction could
give back is a space, so a failed continuation can never be repaired by
backtracking.  `re.search` tries each start position left to right. -/

/-- Membership in the regex `\s` class (ASCII members). -/
def isPySpace (c : Char) : Bool :=
  c == ' ' || c == '\t' || c == '\n' || c == '\r' || c == '\x0b' || c == '\x0c'

/-- Match a literal character sequence at the head of the input, returning the
rest of the input on success. -/
def stripLit : List Char → List Char → Option (List Char)
  | [], l => some l
  | _ :: _, [] => none
  | p :: ps, x :: xs => if x = p then stripLit ps xs else none

def sendLit1 : List Char := "send solana ".data

def sendLit2 : List Char := " to ".data

/-- The optional fraction group `(\.\d+)?`: on `'.'` followed by at least one
digit it consumes the greedy digit run and returns (fraction digits, rest);
otherwise the group matches empty and the input is left in place. -/
def fracSplit (r2 : List Char) : List Char × List Char :=
  match r2 with
  | '.' :: r2t =>
    if r2t.takeWhile Char.isDigit = [] then ([], '.' :: r2t)
    else (r2t.takeWhile Char.isDigit, r2t.dropWhile Char.isDigit)
  | _ => ([], r2)

/-- Value of `float(match.group(1))` where group 1 is the digit run optionally
followed by `.` and the fraction digits. -/
def sendAmountVal (intDigits fracDigits : List Char) : ℚ :=
  (decimalDigitsVal intDigits : ℚ) + (decimalDigitsVal fracDigits : ℚ) / 10 ^ fracDigits.length

/-- Attempt the pattern `send solana (\d+(\.\d+)?) to (\S+)` at the head of the
(already lowercased) input. -/
def matchSendAt (l : List Char) : Option (ℚ × String) :=
  match stripLit sendLit1 l with
  | none => none
  | some r1 =>
    if r1.takeWhile Char.isDigit = [] then none
    else
      match stripLit sendLit2 (fracSplit (r1.dropWhile Char.isDigit)).2 with
      | none => none
      | some r3 =>
        if r3.takeWhile (fun c => !isPySpace c) = [] then none
        else
          some (sendAmountVal (r1.takeWhile Char.isDigit)
              (fracSplit (r1.dropWhile Char.isDigit)).1,
            String.mk (r3.takeWhile (fun c => !isPySpace c)))

/-- The scan of `re.search`: try the pattern at each start position, left to
right. -/
def searchSend : List Char → Option (ℚ × String)
  | [] => none
  | c :: cs =>
    match matchSendAt (c :: cs) with
    | some res => some res
    | none => searchSend cs

/-- Source `parse_solana_transaction_command(user_input)` (see the section
comment above). -/
def parse_solana_transaction_command (user_input : String) : Option (ℚ × String) :=
  searchSend (user_input.data.map Char.toLower)

/-- A syntactically valid 44-character recipient address (only the length is
inspected by validation). -/
def sampleAddress : String := String.mk (List.replicate 44 'r')

/-- A 44-character token mint address. -/
def sampleMint : String := String.mk (List.replicate 44 'm')

def aliceKeypair : Keypair := ⟨"AlicePub"⟩

/-! ## Theorems for the cache claims -/

/-- C7: storing a response for a prompt and then looking the prompt up returns
exactly that response, and storing twice under the same prompt leaves only the
latest response visible to lookup. -/
theorem c7_store_lookup (c : Cache) (p r r2 : String) :
    get_cached_response (cache_response c p r) p = some r ∧
    get_cached_response (cache_response (cache_response c p r) p r2) p = some r2 := by
  refine ⟨?_, ?_⟩ <;> simp [get_cached_response, cache_response, List.lookup]

/-- C3 counterexample: loading a snapshot file whose contents are malformed does
not yield an empty cache; the `json.load` failure propagates because the
module-level load has no exception handler. -/
theorem c3_counterexample :
    load_response_cache (some "corrupt") ≠ Except.ok ([] : Cache) ∧
    load_response_cache (some "corrupt") = Except.error "JSONDecodeError" := by
  have h : load_response_cache (some "corrupt") = Except.error "JSONDecodeError" := rfl
  exact ⟨by rw [h]; simp, h⟩

/-- C3 amended: when the snapshot file is absent the cache starts empty, but
when the file exists with malformed contents the parse failure propagates
(startup raises) instead of yielding an empty cache; well-formed contents load
as parsed. -/
theorem c3_amended_load (s : String) :
    load_response_cache none = Except.ok ([] : Cache) ∧
    (jsonParse s = none → load_response_cache (some s) = Except.error "JSONDecodeError") ∧
    (∀ m, jsonParse s = some m → load_response_cache (some s) = Except.ok m) := by
  refine ⟨rfl, ?_, ?_⟩
  · intro h
    simp [load_response_cache, h]
  · intro m h
    simp [load_response_cache, h]

/-- C3 amended, witness at the concrete snapshot `"corrupt"`. -/
theorem c3_amended_load_witness :
    load_response_cache none = Except.ok ([] : Cache) ∧
    load_response_cache (some "corrupt") = Except.error "JSONDecodeError" :=
  ⟨(c3_amended_load "corrupt").1, (c3_amended_load "corrupt").2.1 (by decide)⟩

/-- C9: when the stored cache entry for a prompt is the empty string, the cache
lookup itself returns that stored empty string, yet `get_openai_response`
treats the cache as missing and issues the external backend call; a cached
response short-circuits the backend only when it is non-empty. -/
theorem c9_empty_cache_entry (c : Cache) (backend : String → String) (p : String) :
    (get_cached_response c p = some "" →
      get_openai_response c backend p =
        (backend p, cache_response c p (backend p), [p])) ∧
    (∀ r, get_cached_response c p = some r → r ≠ "" →
      get_openai_response c backend p = (r, c, [])) := by
  constructor
  · intro h
    simp [get_openai_response, h]
  · intro r h hr
    simp [get_openai_response, h, hr]

/-- C9 witness: a cache holding the empty string under `"q"` still triggers the
backend, while a non-empty entry short-circuits it. -/
theorem c9_empty_cache_entry_witness :
    get_openai_response [("q", "")] (fun _ => "gen") "q" =
      ("gen", cache_response [("q", "")] "q" "gen", ["q"]) ∧
    get_openai_response [("q", "hi")] (fun _ => "gen") "q" = ("hi", [("q", "hi")], []) :=
  ⟨(c9_empty_cache_entry [("q", "")] (fun _ => "gen") "q").1 (by decide),
   (c9_empty_cache_entry [("q", "hi")] (fun _ => "gen") "q").2 "hi" (by decide) (by decide)⟩

/-! ## Theorems for the wallet and transaction claims -/

/-- C1, code evaluated at the failing input: `send_solana_transaction` contains
no confirmation stage and no 2FA stage at all (`verify_2fa` exists in spica.py
but is never called on the transfer path), so a valid transfer request is
signed and submitted whatever the operator's confirmation answer or one-time
code would have been — there is no input through which answering "no" could
yield an authorization failure. -/
theorem c1_no_authorization_gate (_confirmation_answer _totp_code : String) :
    send_solana_transaction [("alice", aliceKeypair)] "alice" sampleAddress (3 / 2) none
        (fun _ => Except.ok "sig1") =
      (SendResult.submitted "sig1",
        [NetEvent.signTx "AlicePub",
         NetEvent.submitTx [Instr.transferIx "AlicePub" sampleAddress 1500000000]]) := by
  have hl : lookupWallet [("alice", aliceKeypair)] "alice" = some aliceKeypair := by decide
  have ha : validate_solana_address sampleAddress = true := by decide
  have hv : validate_transaction_amount_float (3 / 2) = true := by
    simp only [validate_transaction_amount_float, decide_eq_true_eq]
    norm_num
  have hamt : pyInt ((3 / 2 : ℚ) * 10 ^ 9) = 1500000000 := by
    have h : ((3 / 2 : ℚ) * 10 ^ 9) = (1500000000 : ℚ) := by norm_num
    rw [h]
    rfl
  simp [send_solana_transaction, hl, ha, hv, hamt, aliceKeypair]
  rfl

/-- C2, code evaluated at the failing input: the SPL-token branch hardcodes
`amount=int(amount * 10**9)` and `decimals=9` (the request carries no decimals
field), so a token transfer of amount 10 for a 6-decimal token encodes
10_000_000_000 base units stamped with decimals 9, not the 10_000_000 the
specification requires. -/
theorem c2_token_decimals_hardcoded :
    send_solana_transaction [("alice", aliceKeypair)] "alice" sampleAddress 10
        (some sampleMint) (fun _ => Except.ok "sig1") =
      (SendResult.submitted "sig1",
        [NetEvent.signTx "AlicePub",
         NetEvent.submitTx
           [Instr.transferCheckedIx TOKEN_PROGRAM_ID "AlicePub" sampleMint
             sampleAddress "AlicePub" 10000000000 9]]) ∧
    (10000000000 : Int) ≠ 10 * 10 ^ 6 := by
  constructor
  · have hl : lookupWallet [("alice", aliceKeypair)] "alice" = some aliceKeypair := by decide
    have ha : validate_solana_address sampleAddress = true := by decide
    have hv : validate_transaction_amount_float 10 = true := by
      simp only [validate_transaction_amount_float, decide_eq_true_eq]
      norm_num
    have hamt : pyInt ((10 : ℚ) * 10 ^ 9) = 10000000000 := by
      have h : ((10 : ℚ) * 10 ^ 9) = (10000000000 : ℚ) := by norm_num
      rw [h]
      rfl
    simp [send_solana_transaction, hl, ha, hv, hamt, aliceKeypair]
    rfl
  · norm_num

/-- C4, code evaluated at the failing input: `connect_wallet` never registers a
wallet — for every supplied secret, including one that decodes to 64 bytes,
resolving the unimported name `base58` raises `NameError`, the blanket
`except` reports failure, and the registry is left unchanged. -/
theorem c4_connect_never_registers (ws : WalletRegistry) (name key : String)
    (b58decode : String → Option (List Nat))
    (fromSecretKey : List Nat → Option Keypair) :
    connect_wallet ws name key b58decode fromSecretKey =
      (ws, ConnectResult.failed "name base58 is not defined") := by
  rfl

/-- C5: for a wallet name not present in the registry, the resolve lookup is
`none`, and both `get_solana_balance` and `send_solana_transaction` report the
wallet as not found with an empty trace — no signing and no network call. -/
theorem c5_unknown_wallet_no_network (ws : WalletRegistry) (name recipient : String)
    (amount : ℚ) (token_address : Option String)
    (balanceRpc : String → Except String Int)
    (submitRpc : List Instr → Except String String)
    (h : lookupWallet ws name = none) :
    get_solana_balance ws name balanceRpc = (BalanceResult.walletNotFound, []) ∧
    send_solana_transaction ws name recipient amount token_address submitRpc =
      (SendResult.walletNotFound, []) := by
  constructor
  · simp [get_solana_balance, h]
  · simp [send_solana_transaction, h]

/-- C5 witness at the unregistered name `"ghost"` on an empty registry. -/
theorem c5_unknown_wallet_no_network_witness :
    get_solana_balance [] "ghost" (fun _ => Except.ok 0) =
      (BalanceResult.walletNotFound, []) ∧
    send_solana_transaction [] "ghost" sampleAddress 1 none (fun _ => Except.ok "sig") =
      (SendResult.walletNotFound, []) :=
  c5_unknown_wallet_no_network [] "ghost" sampleAddress 1 none
    (fun _ => Except.ok 0) (fun _ => Except.ok "sig") (by decide)

/-- C6: for a resolvable wallet, `send_solana_transaction` validates the
recipient address first (rejecting with an empty trace — no signing, no
network call — whenever `validate_solana_address` fails, regardless of the
amount), then the amount (rejecting, again with an empty trace, whenever it is
not strictly positive); `validate_solana_address` is exactly the length-44
check and `validate_transaction_amount` accepts exactly the parseable strictly
positive amounts, returning `False` on `ValueError`. -/
theorem c6_validation_order (ws : WalletRegistry) (name : String) (kp : Keypair)
    (recipient : String) (amount : ℚ) (token_address : Option String)
    (submitRpc : List Instr → Except String String)
    (hw : lookupWallet ws name = some kp) :
    (validate_solana_address recipient = false →
      send_solana_transaction ws name recipient amount token_address submitRpc =
        (SendResult.invalidAddress, [])) ∧
    (validate_solana_address recipient = true → ¬ 0 < amount →
      send_solana_transaction ws name recipient amount token_address submitRpc =
        (SendResult.invalidAmount, [])) ∧
    validate_solana_address recipient = (recipient.length == 44) ∧
    (∀ s x, pyFloat? s = some x → validate_transaction_amount s = decide (0 < x)) ∧
    (∀ s, pyFloat? s = none → validate_transaction_amount s = false) := by
  refine ⟨?_, ?_, rfl, ?_, ?_⟩
  · intro h
    simp [send_solana_transaction, hw, h]
  · intro h1 h2
    simp [send_solana_transaction, hw, h1, validate_transaction_amount_float, h2]
  · intro s x h
    simp [validate_transaction_amount, h]
  · intro s h
    simp [validate_transaction_amount, h]

/-- C6 witness: a bad-length recipient is rejected as an invalid address even
when the amount is also bad (first failing check wins), a well-formed recipient
with a non-positive amount is rejected as an invalid amount, both with empty
traces, and the amount validator rejects the unparseable string `"abc"` and
accepts `"1.5"`. -/
theorem c6_validation_order_witness :
    send_solana_transaction [("alice", aliceKeypair)] "alice" "short" (-3) none
        (fun _ => Except.ok "sig") = (SendResult.invalidAddress, []) ∧
    send_solana_transaction [("alice", aliceKeypair)] "alice" sampleAddress (-1) none
        (fun _ => Except.ok "sig") = (SendResult.invalidAmount, []) ∧
    validate_transaction_amount "abc" = false ∧
    validate_transaction_amount "1.5" = true :=
  ⟨(c6_validation_order [("alice", aliceKeypair)] "alice" aliceKeypair "short" (-3)
      none (fun _ => Except.ok "sig") (by decide)).1 (by decide),
   (c6_validation_order [("alice", aliceKeypair)] "alice" aliceKeypair sampleAddress (-1)
      none (fun _ => Except.ok "sig") (by decide)).2.1 (by decide) (by norm_num),
   (c6_validation_order [("alice", aliceKeypair)] "alice" aliceKeypair "abc" 1
      none (fun _ => Except.ok "sig") (by decide)).2.2.2.2 "abc" (by decide),
   by
     have h := (c6_validation_order [("alice", aliceKeypair)] "alice" aliceKeypair
        sampleAddress 1 none (fun _ => Except.ok "sig") (by decide)).2.2.2.1 "1.5" (3 / 2)
        (by simp +decide [pyFloat?, decimalDigitsVal]; norm_num)
     rw [h]
     norm_num⟩

/-- C8, code evaluated at the failing input: switching to a registered wallet
sets the chatbot's pointer to that name and leaves the registry untouched, but
switching to an unregistered name does not leave the pointer unchanged — the
dispatch assigns it the module-global `current_wallet`, which is permanently
`None`, so a pointer previously set to `"alice"` is cleared. -/
theorem c8_failed_switch_resets_pointer :
    dispatch_switch_wallet
        { wallets := [("alice", aliceKeypair)], moduleCurrent := initModuleCurrent,
          localCurrent := none } "alice" =
      { wallets := [("alice", aliceKeypair)], moduleCurrent := none,
        localCurrent := some "alice" } ∧
    dispatch_switch_wallet
        { wallets := [("alice", aliceKeypair)], moduleCurrent := initModuleCurrent,
          localCurrent := some "alice" } "bob" =
      { wallets := [("alice", aliceKeypair)], moduleCurrent := none,
        localCurrent := none } := by
  constructor
  · decide
  · decide

/-! ## Lemmas about the command-parsing model -/

theorem stripLit_append {p l r : List Char} (h : stripLit p l = some r) : l = p ++ r := by
  induction p generalizing l with
  | nil =>
    simp only [stripLit, Option.some.injEq] at h
    simp [h]
  | cons c cs ih =>
    cases l with
    | nil => simp [stripLit] at h
    | cons x xs =>
      by_cases hx : x = c
      · simp only [stripLit, if_pos hx] at h
        simp [hx, ih h]
      · simp [stripLit, if_neg hx] at h

theorem fracSplit_snd_decomp (r2 : List Char) : ∃ u, u ++ (fracSplit r2).2 = r2 := by
  unfold fracSplit
  split
  · rename_i r2t
    by_cases hd : r2t.takeWhile Char.isDigit = []
    · exact ⟨[], by simp [hd]⟩
    · refine ⟨'.' :: r2t.takeWhile Char.isDigit, ?_⟩
      simp [hd, List.takeWhile_append_dropWhile]
  · exact ⟨[], rfl⟩

theorem matchSendAt_sound {l : List Char} {a : ℚ} {r : String}
    (h : matchSendAt l = some (a, r)) :
    r.data ≠ [] ∧ (∀ c ∈ r.data, isPySpace c = false) ∧
    ∃ u v, u ++ r.data ++ v = l := by
  unfold matchSendAt at h
  split at h
  · cases h
  · rename_i r1 h1
    split at h
    · cases h
    · rename_i hd
      split at h
      · cases h
      · rename_i r3 h2
        split at h
        · cases h
        · rename_i hr
          have hinj := Option.some.inj h
          rw [Prod.mk.injEq] at hinj
          have hrdata : r.data = r3.takeWhile (fun c => !isPySpace c) := by
            rw [← hinj.2]
          refine ⟨by rw [hrdata]; exact hr, ?_, ?_⟩
          · intro c hc
            rw [hrdata] at hc
            simpa using List.mem_takeWhile_imp hc
          · obtain ⟨u, hu⟩ := fracSplit_snd_decomp (r1.dropWhile Char.isDigit)
            have h23 : (fracSplit (r1.dropWhile Char.isDigit)).2 = sendLit2 ++ r3 :=
              stripLit_append h2
            have hu' : u ++ (sendLit2 ++ r3) = r1.dropWhile Char.isDigit := by
              rw [← h23]
              exact hu
            have hr3 : r3.takeWhile (fun c => !isPySpace c) ++
                r3.dropWhile (fun c => !isPySpace c) = r3 :=
              List.takeWhile_append_dropWhile _ _
            have hr1 : r1.takeWhile Char.isDigit ++ r1.dropWhile Char.isDigit = r1 :=
              List.takeWhile_append_dropWhile _ _
            have hl1 : l = sendLit1 ++ r1 := stripLit_append h1
            refine ⟨sendLit1 ++ (r1.takeWhile Char.isDigit ++ u ++ sendLit2),
              r3.dropWhile (fun c => !isPySpace c), ?_⟩
            rw [hrdata]
            calc (sendLit1 ++ (r1.takeWhile Char.isDigit ++ u ++ sendLit2)) ++
                  r3.takeWhile (fun c => !isPySpace c) ++
                  r3.dropWhile (fun c => !isPySpace c)
                = sendLit1 ++ (r1.takeWhile Char.isDigit ++ (u ++ (sendLit2 ++
                    (r3.takeWhile (fun c => !isPySpace c) ++
                     r3.dropWhile (fun c => !isPySpace c))))) := by
                  simp [List.append_assoc]
              _ = sendLit1 ++ (r1.takeWhile Char.isDigit ++ (u ++ (sendLit2 ++ r3))) := by
                  rw [hr3]
              _ = sendLit1 ++ (r1.takeWhile Char.isDigit ++ r1.dropWhile Char.isDigit) := by
                  rw [hu']
              _ = sendLit1 ++ r1 := by rw [hr1]
              _ = l := hl1.symm

theorem searchSend_eq_some {l : List Char} {x : ℚ × String} (h : searchSend l = some x) :
    ∃ i, matchSendAt (l.drop i) = some x := by
  induction l with
  | nil => cases h
  | cons c cs ih =>
    unfold searchSend at h
    split at h
    · rename_i y hm
      cases h
      exact ⟨0, by rw [List.drop_zero]; exact hm⟩
    · rename_i hm
      obtain ⟨i, hi⟩ := ih h
      exact ⟨i + 1, by simpa using hi⟩

theorem searchSend_eq_none (l : List Char) :
    searchSend l = none ↔ ∀ i, matchSendAt (l.drop i) = none := by
  induction l with
  | nil =>
    constructor
    · intro _ i
      rw [List.drop_nil]
      rfl
    · intro _
      rfl
  | cons c cs ih =>
    constructor
    · intro h i
      unfold searchSend at h
      split at h
      · cases h
      · rename_i hm
        cases i with
        | zero => rw [List.drop_zero]; exact hm
        | succ j => simpa using (ih.mp h) j
    · intro h
      have h0 := h 0
      rw [List.drop_zero] at h0
      unfold searchSend
      rw [h0]
      show searchSend cs = none
      exact ih.mpr fun i => by simpa using h (i + 1)

theorem sliceOfMapDecomp {r : List Char} {s : String}
    (h : ∃ u v, u ++ r ++ v = s.data.map Char.toLower) :
    ∃ i, r = ((s.data.drop i).take r.length).map Char.toLower := by
  obtain ⟨u, v, huv⟩ := h
  refine ⟨u.length, ?_⟩
  have hd : (s.data.map Char.toLower).drop u.length = r ++ v := by
    rw [← huv, List.append_assoc]
    exact List.drop_left u (r ++ v)
  have ht : ((s.data.map Char.toLower).drop u.length).take r.length = r := by
    rw [hd]
    exact List.take_left r v
  calc r = ((s.data.map Char.toLower).drop u.length).take r.length := ht.symm
    _ = ((s.data.drop u.length).map Char.toLower).take r.length := by
        rw [← List.map_drop]
    _ = ((s.data.drop u.length).take r.length).map Char.toLower := by
        rw [← List.map_take]

/-- C10: whenever `parse_solana_transaction_command` returns a pair, the
returned recipient is the characterwise-lowercase image of the corresponding
span of the typed input — a non-empty run of non-whitespace characters, never
the verbatim mixed-case text — and it returns `none` (the `(None, None)` pair)
exactly when the pattern `send solana (\d+(\.\d+)?) to (\S+)` matches at no
position of the lowercased input. -/
theorem c10_parse_command (s : String) :
    (∀ a r, parse_solana_transaction_command s = some (a, r) →
      r.data ≠ [] ∧ (∀ c ∈ r.data, isPySpace c = false) ∧
      ∃ i, r.data = ((s.data.drop i).take r.data.length).map Char.toLower) ∧
    (parse_solana_transaction_command s = none ↔
      ∀ i, matchSendAt ((s.data.map Char.toLower).drop i) = none) := by
  constructor
  · intro a r h
    unfold parse_solana_transaction_command at h
    obtain ⟨i, hi⟩ := searchSend_eq_some h
    obtain ⟨hne, hsp, u, v, huv⟩ := matchSendAt_sound hi
    refine ⟨hne, hsp, ?_⟩
    apply sliceOfMapDecomp
    refine ⟨(s.data.map Char.toLower).take i ++ u, v, ?_⟩
    have hsplit : (s.data.map Char.toLower).take i ++ (s.data.map Char.toLower).drop i =
        s.data.map Char.toLower := List.take_append_drop i _
    calc ((s.data.map Char.toLower).take i ++ u) ++ r.data ++ v
        = (s.data.map Char.toLower).take i ++ (u ++ r.data ++ v) := by
          simp [List.append_assoc]
      _ = (s.data.map Char.toLower).take i ++ (s.data.map Char.toLower).drop i := by
          rw [huv]
      _ = s.data.map Char.toLower := hsplit
  · exact searchSend_eq_none _

/-- C10 witness: on the mixed-case input `"Send Solana 1.5 to AliceAddr"` the
parser succeeds and the returned recipient `"aliceaddr"` is the lowercase image
of the typed span, not the verbatim text. -/
theorem c10_parse_command_witness :
    ("aliceaddr" : String).data ≠ [] ∧
    (∀ c ∈ ("aliceaddr" : String).data, isPySpace c = false) ∧
    ∃ i, ("aliceaddr" : String).data =
      ((("Send Solana 1.5 to AliceAddr" : String).data.drop i).take
        ("aliceaddr" : String).data.length).map Char.toLower :=
  (c10_parse_command "Send Solana 1.5 to AliceAddr").1 (sendAmountVal ['1'] ['5'])
    "aliceaddr" (by rfl)

end Spica
